import Mathlib

/-
Verification development for the ocean-simulation core of the repository
(Blender's ocean modifier: `BKE_ocean_init_from_modifier`, `BKE_ocean_init`,
`BKE_ocean_simulate`, grid evaluation and the frame cache/baker).

Floating-point values are embedded as rationals; complex amplitudes as pairs
of rationals.  Real-valued library functions that cannot be represented over
the rationals (square root, the spectrum formula, the dispersion relation,
the complex exponential, and the inverse-FFT back ends) are kept as explicit
function parameters bundled in `OceanMath`.
-/

/-- A complex amplitude, the `fftw_complex` cell of the source (two floats). -/
structure Complexf where
  re : ℚ
  im : ℚ
deriving DecidableEq

/-- mul_complex_f from the source: complex times real scalar. -/
def mul_complex_f (a : Complexf) (s : ℚ) : Complexf :=
  ⟨a.re * s, a.im * s⟩

/-- mul_complex_c from the source: complex multiplication. -/
def mul_complex_c (a b : Complexf) : Complexf :=
  ⟨a.re * b.re - a.im * b.im, a.re * b.im + a.im * b.re⟩

/-- add_complex_c from the source: complex addition. -/
def add_complex_c (a b : Complexf) : Complexf :=
  ⟨a.re + b.re, a.im + b.im⟩

/-- conj_complex from the source: complex conjugation. -/
def conj_complex (a : Complexf) : Complexf :=
  ⟨a.re, -a.im⟩

/-- Modelled from the spec: one step of the fixed, documented pseudorandom
algorithm behind `BLI_rng` (the generator's internals are not in the source;
the spec requires a fixed deterministic seeded algorithm).  A small
Lehmer-style generator stands in for it. -/
def rng_step (s : Nat) : Nat :=
  (75 * s + 74) % 65537

/-- Modelled from the spec: the seeded generator starts in a state that is a
pure function of the seed alone (never host time). -/
def seedRNG (seed : Nat) : Nat :=
  seed

/-- Modelled from the spec: `gaussRand` draws one pseudo-normal value from the
generator state and returns the advanced state.  The Gaussian shaping is
irrelevant to the claims; what matters is that the draw is a pure function of
the generator state. -/
def gaussRand (s : Nat) : ℚ × Nat :=
  ((rng_step s : ℚ) / 65537, rng_step s)

/-- Advance the generator state by a number of draws. -/
def rngAdvance (r : Nat) : Nat → Nat
  | 0 => r
  | n + 1 => rngAdvance (gaussRand r).2 n

/-- Real-valued math and transform back ends used by the ocean core.  These
are calls whose bodies are outside the embedded excerpts (`sqrt`, the wave
spectrum `Ph`, the dispersion relation, `exp_complex`, and the per-channel
inverse-FFT pipelines), kept as explicit function parameters. -/
structure OceanMath where
  sqrtQ : ℚ → ℚ
  Ph : ℚ → ℚ → ℚ
  omegaK : ℚ → ℚ → ℚ
  cexpI : ℚ → Complexf
  compute_disp_y : List Complexf → Nat → Nat → ℚ
  compute_disp_x : List Complexf → Nat → Nat → ℚ
  compute_disp_z : List Complexf → Nat → Nat → ℚ
  compute_jxx : List Complexf → Nat → Nat → ℚ
  compute_jzz : List Complexf → Nat → Nat → ℚ
  compute_jxz : List Complexf → Nat → Nat → ℚ
  compute_normal_x : List Complexf → Nat → Nat → ℚ
  compute_normal_z : List Complexf → Nat → Nat → ℚ
  ocean_foam : ℚ → ℚ → ℚ → ℚ

/-- The body of the `BKE_ocean_init` synthesis loop for one cell of `h0`:
two successive draws `r1`, `r2` from the generator form the complex pair,
scaled by `sqrt(Ph(kx[i], kz[j]) / 2)` (here the scale is supplied as
`amp i j`).  `idx = i * N + j` is the row-major cell index of the loop. -/
def h0_cell (amp : Nat → Nat → ℚ) (N idx rng : Nat) : Complexf :=
  mul_complex_f ⟨(gaussRand rng).1, (gaussRand (gaussRand rng).2).1⟩
    (amp (idx / N) (idx % N))

/-- The `BKE_ocean_init` synthesis loop over the full `M x N` grid,
threading the generator state in row-major order; each cell consumes
exactly two draws. -/
def gen_h0_cells (amp : Nat → Nat → ℚ) (N : Nat) : Nat → Nat → Nat → List Complexf
  | _, 0, _ => []
  | start, n + 1, rng =>
      h0_cell amp N start rng :: gen_h0_cells amp N (start + 1) n (rngAdvance rng 2)

/-- Build a list by tabulating a function over consecutive indices; the shape
of every grid-filling loop in the ocean core. -/
def tabulateFrom {α : Type} (g : Nat → α) : Nat → Nat → List α
  | _, 0 => []
  | s, n + 1 => g s :: tabulateFrom g (s + 1) n

/-- The ocean simulation state (`Ocean` in the source): grid dimensions,
feature flags, the wavenumber arrays, the static frequency field `h0`, and
the spatial output grids overwritten by each simulation step. -/
structure Ocean where
  M : Nat
  N : Nat
  do_disp_y : Bool
  do_chop : Bool
  do_spray : Bool
  do_normals : Bool
  do_jacobian : Bool
  kx : Nat → ℚ
  kz : Nat → ℚ
  h0 : List Complexf
  disp_y_grid : Nat → Nat → ℚ
  disp_x_grid : Nat → Nat → ℚ
  disp_z_grid : Nat → Nat → ℚ
  jxx_grid : Nat → Nat → ℚ
  jzz_grid : Nat → Nat → ℚ
  jxz_grid : Nat → Nat → ℚ
  normal_x_grid : Nat → Nat → ℚ
  normal_z_grid : Nat → Nat → ℚ

/-- BKE_ocean_init from the source excerpt: stores dimensions and flags and
runs the synthesis loop that fills `h0[i * N + j]` with two Gaussian draws
scaled by `sqrt(Ph(kx[i], kz[j]) / 2)`, seeded once from the seed.  The
wavenumber arrays `kx`, `kz` are computed by code outside the excerpt and are
taken as parameters; spatial grids start zeroed. -/
def BKE_ocean_init (ext : OceanMath) (kx kz : Nat → ℚ) (M N : Nat)
    (do_height do_chop do_spray do_normals do_jacobian : Bool)
    (seed : Nat) : Ocean :=
  { M := M
    N := N
    do_disp_y := do_height
    do_chop := do_chop
    do_spray := do_spray
    do_normals := do_normals
    do_jacobian := do_jacobian
    kx := kx
    kz := kz
    h0 := gen_h0_cells (fun i j => ext.sqrtQ (ext.Ph (kx i) (kz j) / 2))
      N 0 (M * N) (seedRNG seed)
    disp_y_grid := fun _ _ => 0
    disp_x_grid := fun _ _ => 0
    disp_z_grid := fun _ _ => 0
    jxx_grid := fun _ _ => 0
    jzz_grid := fun _ _ => 0
    jxz_grid := fun _ _ => 0
    normal_x_grid := fun _ _ => 0
    normal_z_grid := fun _ _ => 0 }

/-- OceanModifierData: the modifier-level parameter block.  The bit-flag
tests `omd->flag & MOD_OCEAN_GENERATE_NORMALS` / `MOD_OCEAN_GENERATE_FOAM`
are embedded as two booleans. -/
structure OceanModifierData where
  resolution : Nat
  spatial_size : ℚ
  wind_velocity : ℚ
  smallest_wave : ℚ
  wave_alignment : ℚ
  depth : ℚ
  wave_direction : ℚ
  chop_amount : ℚ
  damp : ℚ
  time : ℚ
  scale : ℚ
  spectrum : Nat
  seed : Nat
  generate_normals : Bool
  generate_foam : Bool
  location0 : ℚ
  location2 : ℚ
  cached : Bool

/-- init_data from the source excerpt: default modifier values.  Fields not
shown in the excerpt (the trailing more-defaults part) are modelled from the
spec and the debug trace: normals and foam off, chop on, seed 0. -/
def init_data : OceanModifierData :=
  { resolution := 7
    spatial_size := 50
    wind_velocity := 30
    smallest_wave := 1 / 100
    wave_alignment := 0
    depth := 200
    wave_direction := 0
    chop_amount := 1
    damp := 1 / 2
    time := 1
    scale := 1
    spectrum := 0
    seed := 0
    generate_normals := false
    generate_foam := false
    location0 := 0
    location2 := 0
    cached := false }

/-- BKE_ocean_init_from_modifier from the source excerpt: the height field is
always on, choppiness is on exactly when `chop_amount > 0`, normals and foam
follow the modifier flags, and both grid dimensions are
`resolution * resolution`. -/
def BKE_ocean_init_from_modifier (ext : OceanMath) (kx kz : Nat → ℚ)
    (omd : OceanModifierData) (resolution : Nat) : Ocean :=
  BKE_ocean_init ext kx kz
    (resolution * resolution)
    (resolution * resolution)
    true
    (decide (0 < omd.chop_amount))
    false
    omd.generate_normals
    omd.generate_foam
    omd.seed

/-- Tags naming the per-step fields the simulation step computes; the
`ocean_compute_*` calls of `BKE_ocean_simulate`. -/
inductive FieldTag
  | dispY
  | chopX
  | chopZ
  | jxx
  | jzz
  | jxz
  | normalX
  | normalZ
deriving DecidableEq

/-- Modelled from the spec: the body of `ocean_compute_htilda` (only its call
site is in the source excerpt).  One half-spectrum cell of the time-evolved
height amplitude, from the spec formula
`h(k,t) = h0(k) * e^(i*omega*t) + conj(h0(-k)) * e^(-i*omega*t)` with
`omega(k)` from the dispersion relation (`omegaK`). -/
def htilda_cell (ext : OceanMath) (t kxv kzv : ℚ) (h0k h0mk : Complexf) : Complexf :=
  add_complex_c
    (mul_complex_c h0k (ext.cexpI (ext.omegaK kxv kzv * t)))
    (mul_complex_c (conj_complex h0mk) (ext.cexpI (-(ext.omegaK kxv kzv * t))))

/-- Modelled from the spec: `ocean_compute_htilda`, filling the transient
half-spectrum array of `M * (N/2 + 1)` cells (the FFT-array size confirmed by
the allocation analysis), row-major with row stride `1 + N/2`. -/
def ocean_compute_htilda (ext : OceanMath) (kx kz : Nat → ℚ) (M N : Nat) (t : ℚ)
    (h0f h0mf : Nat → Nat → Complexf) : List Complexf :=
  tabulateFrom
    (fun idx =>
      htilda_cell ext t (kx (idx / (1 + N / 2))) (kz (idx % (1 + N / 2)))
        (h0f (idx / (1 + N / 2)) (idx % (1 + N / 2)))
        (h0mf (idx / (1 + N / 2)) (idx % (1 + N / 2))))
    0 (M * (1 + N / 2))

/-- Look up a static `h0` cell by row-major index, as a total function. -/
def ocean_h0_at (o : Ocean) (i j : Nat) : Complexf :=
  ((o.h0.get? (i * o.N + j)).getD ⟨0, 0⟩)

/-- Modelled from the spec: the mirrored amplitude `h0(-k)`, read at the
negated (periodically wrapped) wavenumber indices. -/
def ocean_h0_minus_at (o : Ocean) (i j : Nat) : Complexf :=
  ocean_h0_at o ((o.M - i) % o.M) ((o.N - j) % o.N)

/-- BKE_ocean_simulate from the source excerpt: phase 1 computes the
time-evolved amplitudes (`ocean_compute_htilda`); phase 2 runs one transform
per enabled field, guarded exactly by the feature flags: `do_disp_y` gives
the height grid, `do_chop` gives the two horizontal displacement grids,
`do_jacobian` the three jacobian grids, `do_normals` the two normal grids.
Returns the updated ocean and the tags of the fields actually computed.
The `scale` / `chop_amount` output multipliers act inside the abstract
transform back ends. -/
def BKE_ocean_simulate (ext : OceanMath) (o : Ocean) (t scale chop_amount : ℚ) :
    Ocean × List FieldTag :=
  let htilda := ocean_compute_htilda ext o.kx o.kz o.M o.N t
    (ocean_h0_at o) (ocean_h0_minus_at o)
  let s1 : Ocean × List FieldTag :=
    if o.do_disp_y then
      ({ o with disp_y_grid := ext.compute_disp_y htilda }, [FieldTag.dispY])
    else (o, [])
  let s2 : Ocean × List FieldTag :=
    if o.do_chop then
      ({ s1.1 with
          disp_x_grid := ext.compute_disp_x htilda
          disp_z_grid := ext.compute_disp_z htilda },
        s1.2 ++ [FieldTag.chopX, FieldTag.chopZ])
    else s1
  let s3 : Ocean × List FieldTag :=
    if o.do_jacobian then
      ({ s2.1 with
          jxx_grid := ext.compute_jxx htilda
          jzz_grid := ext.compute_jzz htilda
          jxz_grid := ext.compute_jxz htilda },
        s2.2 ++ [FieldTag.jxx, FieldTag.jzz, FieldTag.jxz])
    else s2
  let s4 : Ocean × List FieldTag :=
    if o.do_normals then
      ({ s3.1 with
          normal_x_grid := ext.compute_normal_x htilda
          normal_z_grid := ext.compute_normal_z htilda },
        s3.2 ++ [FieldTag.normalX, FieldTag.normalZ])
    else s3
  s4

/-- OceanResult: the per-point evaluation record (displacement vector,
normal vector, foam scalar). -/
structure OceanResult where
  disp0 : ℚ
  disp1 : ℚ
  disp2 : ℚ
  normal0 : ℚ
  normal1 : ℚ
  normal2 : ℚ
  foam : ℚ
deriving DecidableEq

/-- The neutral evaluation record: zero displacement, up normal, zero foam. -/
def neutral_result : OceanResult :=
  ⟨0, 0, 0, 0, 1, 0, 0⟩

/-- Modelled from the spec: `BKE_ocean_eval_ij` (its body is outside the
excerpt).  Integer coordinates wrap periodically; each channel reads its
spatial grid when the matching feature flag is set and otherwise yields the
neutral value (zero displacement, up normal, zero foam), never undefined
memory.  Foam is derived from the jacobian grids through the abstract
threshold/clip curve `ocean_foam`. -/
def BKE_ocean_eval_ij (ext : OceanMath) (o : Ocean) (i j : Int) : OceanResult :=
  let ii := (i % (o.M : Int)).toNat
  let jj := (j % (o.N : Int)).toNat
  { disp0 := if o.do_chop then o.disp_x_grid ii jj else 0
    disp1 := if o.do_disp_y then o.disp_y_grid ii jj else 0
    disp2 := if o.do_chop then o.disp_z_grid ii jj else 0
    normal0 := if o.do_normals then o.normal_x_grid ii jj else 0
    normal1 := 1
    normal2 := if o.do_normals then o.normal_z_grid ii jj else 0
    foam := if o.do_jacobian then
        ext.ocean_foam (o.jxx_grid ii jj) (o.jzz_grid ii jj) (o.jxz_grid ii jj)
      else 0 }

/-- Linear interpolation. -/
def lerp (a b f : ℚ) : ℚ :=
  a + f * (b - a)

/-- Bilinear interpolation of the four surrounding samples. -/
def bilerp (v00 v10 v01 v11 fu fv : ℚ) : ℚ :=
  lerp (lerp v00 v10 fu) (lerp v01 v11 fu) fv

/-- Modelled from the spec: `BKE_ocean_eval_uv` maps continuous `(u,v)` to
fractional grid coordinates, wraps periodically (through `BKE_ocean_eval_ij`)
and bilinearly interpolates every channel independently. -/
def BKE_ocean_eval_uv (ext : OceanMath) (o : Ocean) (u v : ℚ) : OceanResult :=
  let uu := u * (o.M : ℚ)
  let vv := v * (o.N : ℚ)
  let i0 : Int := ⌊uu⌋
  let j0 : Int := ⌊vv⌋
  let fu := uu - (i0 : ℚ)
  let fv := vv - (j0 : ℚ)
  let r00 := BKE_ocean_eval_ij ext o i0 j0
  let r10 := BKE_ocean_eval_ij ext o (i0 + 1) j0
  let r01 := BKE_ocean_eval_ij ext o i0 (j0 + 1)
  let r11 := BKE_ocean_eval_ij ext o (i0 + 1) (j0 + 1)
  { disp0 := bilerp r00.disp0 r10.disp0 r01.disp0 r11.disp0 fu fv
    disp1 := bilerp r00.disp1 r10.disp1 r01.disp1 r11.disp1 fu fv
    disp2 := bilerp r00.disp2 r10.disp2 r01.disp2 r11.disp2 fu fv
    normal0 := bilerp r00.normal0 r10.normal0 r01.normal0 r11.normal0 fu fv
    normal1 := bilerp r00.normal1 r10.normal1 r01.normal1 r11.normal1 fu fv
    normal2 := bilerp r00.normal2 r10.normal2 r01.normal2 r11.normal2 fu fv
    foam := bilerp r00.foam r10.foam r01.foam r11.foam fu fv }

/-- The per-frame grid sweep of the baking loop: evaluate every grid point of
one simulated frame, row-major (`x + y * res_x`). -/
def eval_full_grid (ext : OceanMath) (o : Ocean) : List OceanResult :=
  tabulateFrom
    (fun idx => BKE_ocean_eval_ij ext o ((idx % o.M : Nat) : Int) ((idx / o.M : Nat) : Int))
    0 (o.M * o.N)

/-- The error taxonomy of the frame cache: a first-class result, not an
exception. -/
inductive OceanCacheError
  | NotBaked
deriving DecidableEq

/-- BKE_ocean_bake from the source excerpt: for every integer frame from
`start` to `fin`, simulate the ocean at the frame's time, evaluate the full
grid and persist the snapshot keyed by the frame number. -/
def BKE_ocean_bake (ext : OceanMath) (o : Ocean) (start fin : Nat)
    (tOf : Nat → ℚ) (scale chop : ℚ) : List (Nat × List OceanResult) :=
  tabulateFrom
    (fun f => (f, eval_full_grid ext (BKE_ocean_simulate ext o (tOf f) scale chop).1))
    start (fin + 1 - start)

/-- Modelled from the spec: `load_frame` looks the requested frame up in the
cache and fails with `NotBaked` when its record is absent; a returned record
is always a complete stored snapshot, never partially initialized. -/
def BKE_ocean_cache_load_frame (frames : List (Nat × List OceanResult)) (f : Nat) :
    Except OceanCacheError (List OceanResult) :=
  match frames with
  | [] => Except.error OceanCacheError.NotBaked
  | (f0, r0) :: rest =>
      if f0 = f then Except.ok r0 else BKE_ocean_cache_load_frame rest f

/-- displace_ocean_mesh from the source excerpt, for one vertex: map the
vertex to ocean UV space, evaluate, and add only the vertical displacement
`ocr.disp[1] * scale` to `co[1]`. -/
def displace_vertex (ext : OceanMath) (o : Ocean) (omd : OceanModifierData)
    (co0 co1 co2 : ℚ) : ℚ × ℚ × ℚ :=
  let u := (co0 - omd.location0) / omd.spatial_size
  let v := (co2 - omd.location2) / omd.spatial_size
  let ocr := BKE_ocean_eval_uv ext o u v
  (co0, co1 + ocr.disp1 * omd.scale, co2)

/-- A concrete instantiation of the abstract real-valued back ends, used for
evaluating the development on concrete inputs. -/
def trivialMath : OceanMath :=
  { sqrtQ := fun q => q
    Ph := fun _ _ => 2
    omegaK := fun _ _ => 1
    cexpI := fun _ => ⟨1, 0⟩
    compute_disp_y := fun _ _ _ => 0
    compute_disp_x := fun _ _ _ => 0
    compute_disp_z := fun _ _ _ => 0
    compute_jxx := fun _ _ _ => 0
    compute_jzz := fun _ _ _ => 0
    compute_jxz := fun _ _ _ => 0
    compute_normal_x := fun _ _ _ => 0
    compute_normal_z := fun _ _ _ => 0
    ocean_foam := fun _ _ _ => 0 }

/-- A concrete small ocean with every feature flag off. -/
def ocean_all_off : Ocean :=
  BKE_ocean_init trivialMath (fun _ => 0) (fun _ => 0) 2 2 false false false false false 0

/-- A concrete small ocean with height and chop on. -/
def ocean_small : Ocean :=
  BKE_ocean_init trivialMath (fun _ => 0) (fun _ => 0) 1 1 true true false false false 0

lemma rngAdvance_add (a : Nat) :
    ∀ (r b : Nat), rngAdvance r (a + b) = rngAdvance (rngAdvance r a) b := by
  induction a with
  | zero =>
      intro r b
      simp [rngAdvance]
  | succ n ih =>
      intro r b
      have h1 : n + 1 + b = (n + b) + 1 := by omega
      rw [h1]
      simp only [rngAdvance]
      exact ih _ _

lemma gen_h0_cells_length (amp : Nat → Nat → ℚ) (N : Nat) :
    ∀ (n start rng : Nat), (gen_h0_cells amp N start n rng).length = n := by
  intro n
  induction n with
  | zero =>
      intro start rng
      simp [gen_h0_cells]
  | succ m ih =>
      intro start rng
      simp [gen_h0_cells, ih]

lemma gen_h0_cells_get (amp : Nat → Nat → ℚ) (N : Nat) :
    ∀ (n start rng k : Nat), k < n →
      (gen_h0_cells amp N start n rng).get? k =
        some (h0_cell amp N (start + k) (rngAdvance rng (2 * k))) := by
  intro n
  induction n with
  | zero =>
      intro start rng k hk
      omega
  | succ m ih =>
      intro start rng k hk
      cases k with
      | zero =>
          simp [gen_h0_cells, rngAdvance]
      | succ k2 =>
          have hk2 : k2 < m := by omega
          simp only [gen_h0_cells, List.get?]
          rw [ih (start + 1) (rngAdvance rng 2) k2 hk2]
          have h2 : 2 * (k2 + 1) = 2 + 2 * k2 := by ring
          have h3 : start + 1 + k2 = start + (k2 + 1) := by omega
          rw [h2, rngAdvance_add, h3]

lemma tabulateFrom_length {α : Type} (g : Nat → α) :
    ∀ (n s : Nat), (tabulateFrom g s n).length = n := by
  intro n
  induction n with
  | zero =>
      intro s
      simp [tabulateFrom]
  | succ m ih =>
      intro s
      simp [tabulateFrom, ih]

lemma tabulateFrom_get {α : Type} (g : Nat → α) :
    ∀ (n s k : Nat), k < n →
      (tabulateFrom g s n).get? k = some (g (s + k)) := by
  intro n
  induction n with
  | zero =>
      intro s k hk
      omega
  | succ m ih =>
      intro s k hk
      cases k with
      | zero =>
          simp [tabulateFrom]
      | succ k2 =>
          have hk2 : k2 < m := by omega
          simp only [tabulateFrom, List.get?]
          rw [ih (s + 1) k2 hk2]
          have h3 : s + 1 + k2 = s + (k2 + 1) := by omega
          rw [h3]

lemma row_major_lt {i j B M : Nat} (hi : i < M) (hj : j < B) :
    i * B + j < M * B := by
  calc i * B + j < i * B + B := by omega
    _ = (i + 1) * B := by ring
    _ ≤ M * B := Nat.mul_le_mul_right B (by omega)

lemma row_major_div {i j B : Nat} (hj : j < B) : (i * B + j) / B = i := by
  have hB : 0 < B := by omega
  rw [Nat.mul_comm, Nat.mul_add_div hB, Nat.div_eq_of_lt hj, Nat.add_zero]

lemma row_major_mod {i j B : Nat} (hj : j < B) : (i * B + j) % B = j := by
  rw [Nat.mul_comm, Nat.mul_add_mod, Nat.mod_eq_of_lt hj]

lemma load_tabulate_ok (g : Nat → List OceanResult) :
    ∀ (n s f : Nat), s ≤ f → f < s + n →
      BKE_ocean_cache_load_frame (tabulateFrom (fun k => (k, g k)) s n) f =
        Except.ok (g f) := by
  intro n
  induction n with
  | zero =>
      intro s f h1 h2
      omega
  | succ m ih =>
      intro s f h1 h2
      simp only [tabulateFrom, BKE_ocean_cache_load_frame]
      by_cases hsf : s = f
      · subst hsf
        simp
      · rw [if_neg hsf]
        exact ih (s + 1) f (by omega) (by omega)

lemma load_tabulate_absent (g : Nat → List OceanResult) :
    ∀ (n s f : Nat), (f < s ∨ s + n ≤ f) →
      BKE_ocean_cache_load_frame (tabulateFrom (fun k => (k, g k)) s n) f =
        Except.error OceanCacheError.NotBaked := by
  intro n
  induction n with
  | zero =>
      intro s f _
      simp [tabulateFrom, BKE_ocean_cache_load_frame]
  | succ m ih =>
      intro s f h
      simp only [tabulateFrom, BKE_ocean_cache_load_frame]
      have hsf : s ≠ f := by omega
      rw [if_neg hsf]
      exact ih (s + 1) f (by omega)

lemma load_absent_error :
    ∀ (frames : List (Nat × List OceanResult)) (f : Nat),
      (∀ p ∈ frames, p.1 ≠ f) →
      BKE_ocean_cache_load_frame frames f = Except.error OceanCacheError.NotBaked := by
  intro frames
  induction frames with
  | nil =>
      intro f _
      simp [BKE_ocean_cache_load_frame]
  | cons hd tl ih =>
      intro f h
      obtain ⟨f0, r0⟩ := hd
      have h0 : f0 ≠ f := h (f0, r0) (by simp)
      simp only [BKE_ocean_cache_load_frame]
      rw [if_neg h0]
      exact ih f (fun p hp => h p (by simp [hp]))

lemma load_ok_mem :
    ∀ (frames : List (Nat × List OceanResult)) (f : Nat) (r : List OceanResult),
      BKE_ocean_cache_load_frame frames f = Except.ok r → (f, r) ∈ frames := by
  intro frames
  induction frames with
  | nil =>
      intro f r h
      simp [BKE_ocean_cache_load_frame] at h
  | cons hd tl ih =>
      intro f r h
      obtain ⟨f0, r0⟩ := hd
      simp only [BKE_ocean_cache_load_frame] at h
      by_cases hsf : f0 = f
      · subst hsf
        rw [if_pos rfl] at h
        have hr : r0 = r := by
          cases h
          rfl
        subst hr
        simp
      · rw [if_neg hsf] at h
        exact List.mem_cons_of_mem _ (ih f r h)

lemma simulate_tags (ext : OceanMath) (o : Ocean) (t scale chop_amount : ℚ) :
    (BKE_ocean_simulate ext o t scale chop_amount).2 =
      (if o.do_disp_y then [FieldTag.dispY] else []) ++
      (if o.do_chop then [FieldTag.chopX, FieldTag.chopZ] else []) ++
      (if o.do_jacobian then [FieldTag.jxx, FieldTag.jzz, FieldTag.jxz] else []) ++
      (if o.do_normals then [FieldTag.normalX, FieldTag.normalZ] else []) := by
  cases h1 : o.do_disp_y <;> cases h2 : o.do_chop <;>
    cases h3 : o.do_jacobian <;> cases h4 : o.do_normals <;>
    simp [BKE_ocean_simulate, h1, h2, h3, h4]

/-- C1: synthesis is deterministic — `BKE_ocean_init` reached through
`BKE_ocean_init_from_modifier` is a pure function of its arguments, so two
calls with identical modifier data and resolution produce identical static
amplitude fields `h0`, the seeded generator being the only randomness
source. -/
theorem ocean_init_deterministic (ext : OceanMath) (kx kz : Nat → ℚ)
    (omd1 omd2 : OceanModifierData) (r1 r2 : Nat)
    (h1 : omd1 = omd2) (h2 : r1 = r2) :
    (BKE_ocean_init_from_modifier ext kx kz omd1 r1).h0 =
      (BKE_ocean_init_from_modifier ext kx kz omd2 r2).h0 := by
  subst h1
  subst h2
  rfl

/-- Witness for C1 at the default modifier data and resolution 7. -/
theorem ocean_init_deterministic_witness :
    init_data = init_data ∧ (7 : Nat) = 7 ∧
      (BKE_ocean_init_from_modifier trivialMath (fun _ => 0) (fun _ => 0) init_data 7).h0 =
        (BKE_ocean_init_from_modifier trivialMath (fun _ => 0) (fun _ => 0) init_data 7).h0 :=
  ⟨rfl, rfl,
    ocean_init_deterministic trivialMath (fun _ => 0) (fun _ => 0) init_data init_data 7 7 rfl rfl⟩

/-- C2: `BKE_ocean_init_from_modifier` sets both grid dimensions to the
square of the host resolution parameter; at the default resolution 7 this is
a 49 x 49 grid, and 49 is not a power of two. -/
theorem ocean_resolution_squared (ext : OceanMath) (kx kz : Nat → ℚ)
    (omd : OceanModifierData) (r : Nat) :
    (BKE_ocean_init_from_modifier ext kx kz omd r).M = r * r ∧
    (BKE_ocean_init_from_modifier ext kx kz omd r).N = r * r ∧
    (BKE_ocean_init_from_modifier ext kx kz omd init_data.resolution).M = 49 ∧
    ¬ ∃ p, (BKE_ocean_init_from_modifier ext kx kz omd init_data.resolution).M = 2 ^ p := by
  refine ⟨rfl, rfl, rfl, ?_⟩
  rintro ⟨p, hp⟩
  have h49 : (49 : Nat) = 2 ^ p := hp
  have hlt : p < 6 := by
    by_contra hge
    push_neg at hge
    have hpow : (2 : Nat) ^ 6 ≤ 2 ^ p := Nat.pow_le_pow_right (by norm_num) hge
    norm_num at hpow
    omega
  interval_cases p <;> norm_num at h49

/-- C3: every `h0` cell visited by the synthesis loop stores the complex pair
of the two successive draws made from the seeded generator at that cell,
scaled by `sqrt(Ph(kx[i], kz[j]) / 2)`. -/
theorem h0_spectrum_scaling (ext : OceanMath) (kx kz : Nat → ℚ) (M N : Nat)
    (fh fc fs fn fj : Bool) (seed i j : Nat) (hi : i < M) (hj : j < N) :
    (BKE_ocean_init ext kx kz M N fh fc fs fn fj seed).h0.get? (i * N + j) =
      some (mul_complex_f
        ⟨(gaussRand (rngAdvance (seedRNG seed) (2 * (i * N + j)))).1,
         (gaussRand (gaussRand (rngAdvance (seedRNG seed) (2 * (i * N + j)))).2).1⟩
        (ext.sqrtQ (ext.Ph (kx i) (kz j) / 2))) := by
  have hk : i * N + j < M * N := row_major_lt hi hj
  show (gen_h0_cells (fun a b => ext.sqrtQ (ext.Ph (kx a) (kz b) / 2))
      N 0 (M * N) (seedRNG seed)).get? (i * N + j) = _
  rw [gen_h0_cells_get _ _ _ _ _ _ hk]
  simp only [h0_cell, Nat.zero_add]
  rw [row_major_div hj, row_major_mod hj]

/-- Witness for C3 at a concrete 2 x 2 grid, seed 0, cell (1,1). -/
theorem h0_spectrum_scaling_witness :
    1 < 2 ∧ 1 < 2 ∧
      (BKE_ocean_init trivialMath (fun _ => 0) (fun _ => 0) 2 2
          true true false false false 0).h0.get? (1 * 2 + 1) =
        some (mul_complex_f
          ⟨(gaussRand (rngAdvance (seedRNG 0) (2 * (1 * 2 + 1)))).1,
           (gaussRand (gaussRand (rngAdvance (seedRNG 0) (2 * (1 * 2 + 1)))).2).1⟩
          (trivialMath.sqrtQ (trivialMath.Ph 0 0 / 2))) :=
  ⟨by decide, by decide,
    h0_spectrum_scaling trivialMath (fun _ => 0) (fun _ => 0) 2 2
      true true false false false 0 1 1 (by decide) (by decide)⟩

/-- C4 counterexample: the claim that every frequency field, the static `h0`
included, holds exactly `M * (N/2 + 1)` entries fails on the code — at the
default 49 x 49 grid the synthesis loop fills `h0[i * N + j]` over the full
grid, so `h0` holds 49 * 49 = 2401 entries, not 49 * (49/2 + 1) = 1225. -/
theorem freq_field_size_counterexample :
    (BKE_ocean_init trivialMath (fun _ => 0) (fun _ => 0) 49 49
        true true false false false 0).h0.length = 49 * 49 ∧
      49 * 49 ≠ 49 * (49 / 2 + 1) := by
  constructor
  · show (gen_h0_cells (fun a b => trivialMath.sqrtQ (trivialMath.Ph ((fun _ => (0 : ℚ)) a)
        ((fun _ => (0 : ℚ)) b) / 2)) 49 0 (49 * 49) (seedRNG 0)).length = 49 * 49
    exact gen_h0_cells_length _ _ _ _ _
  · decide

/-- C4 amended: the transient per-step frequency fields (the FFT arrays,
`htilda` among them) hold `M * (N/2 + 1)` complex entries in half-spectrum
storage, but the static field `h0` is stored over the full grid and holds
`M * N` entries. -/
theorem freq_field_sizes (ext : OceanMath) (kx kz : Nat → ℚ) (M N : Nat)
    (fh fc fs fn fj : Bool) (seed : Nat) (t : ℚ)
    (h0f h0mf : Nat → Nat → Complexf) :
    (BKE_ocean_init ext kx kz M N fh fc fs fn fj seed).h0.length = M * N ∧
    (ocean_compute_htilda ext kx kz M N t h0f h0mf).length = M * (1 + N / 2) := by
  constructor
  · exact gen_h0_cells_length _ _ _ _ _
  · exact tabulateFrom_length _ _ _

/-- C5: every cell of the time-evolved half-spectrum amplitude computed by
`ocean_compute_htilda` equals
`h0(k) * e^(i*omega(k)*t) + conj(h0(-k)) * e^(-i*omega(k)*t)`, with
`omega(k)` from the dispersion relation. -/
theorem htilda_time_evolution (ext : OceanMath) (kx kz : Nat → ℚ) (M N : Nat)
    (t : ℚ) (h0f h0mf : Nat → Nat → Complexf) (i j : Nat)
    (hi : i < M) (hj : j < 1 + N / 2) :
    (ocean_compute_htilda ext kx kz M N t h0f h0mf).get? (i * (1 + N / 2) + j) =
      some (add_complex_c
        (mul_complex_c (h0f i j) (ext.cexpI (ext.omegaK (kx i) (kz j) * t)))
        (mul_complex_c (conj_complex (h0mf i j))
          (ext.cexpI (-(ext.omegaK (kx i) (kz j) * t))))) := by
  have hk : i * (1 + N / 2) + j < M * (1 + N / 2) := row_major_lt hi hj
  rw [ocean_compute_htilda, tabulateFrom_get _ _ _ _ hk]
  simp only [Nat.zero_add, row_major_div hj, row_major_mod hj, htilda_cell]

/-- Witness for C5 at a concrete 2 x 2 grid, cell (1,1) of the half
spectrum. -/
theorem htilda_time_evolution_witness :
    1 < 2 ∧ 1 < 1 + 2 / 2 ∧
      (ocean_compute_htilda trivialMath (fun _ => 0) (fun _ => 0) 2 2 0
          (fun _ _ => ⟨1, 0⟩) (fun _ _ => ⟨0, 1⟩)).get? (1 * (1 + 2 / 2) + 1) =
        some (add_complex_c
          (mul_complex_c ⟨1, 0⟩ (trivialMath.cexpI (trivialMath.omegaK 0 0 * 0)))
          (mul_complex_c (conj_complex ⟨0, 1⟩)
            (trivialMath.cexpI (-(trivialMath.omegaK 0 0 * 0))))) :=
  ⟨by decide, by decide,
    htilda_time_evolution trivialMath (fun _ => 0) (fun _ => 0) 2 2 0
      (fun _ _ => ⟨1, 0⟩) (fun _ _ => ⟨0, 1⟩) 1 1 (by decide) (by decide)⟩

/-- C6: bake-then-load is observationally equivalent to live simulation — for
every frame in the baked range, loading the frame from the cache returns
exactly the grid obtained by simulating at that frame's time and evaluating
every grid point. -/
theorem bake_load_roundtrip (ext : OceanMath) (o : Ocean) (start fin : Nat)
    (tOf : Nat → ℚ) (scale chop : ℚ) (f : Nat)
    (h1 : start ≤ f) (h2 : f ≤ fin) :
    BKE_ocean_cache_load_frame (BKE_ocean_bake ext o start fin tOf scale chop) f =
      Except.ok (eval_full_grid ext (BKE_ocean_simulate ext o (tOf f) scale chop).1) := by
  unfold BKE_ocean_bake
  exact load_tabulate_ok _ _ _ _ h1 (by omega)

/-- Witness for C6: baking frames 1..2 of a concrete 1 x 1 ocean and loading
frame 1. -/
theorem bake_load_roundtrip_witness :
    1 ≤ 1 ∧ 1 ≤ 2 ∧
      BKE_ocean_cache_load_frame
          (BKE_ocean_bake trivialMath ocean_small 1 2 (fun f => (f : ℚ)) 1 1) 1 =
        Except.ok (eval_full_grid trivialMath
          (BKE_ocean_simulate trivialMath ocean_small ((1 : Nat) : ℚ) 1 1).1) :=
  ⟨by decide, by decide,
    bake_load_roundtrip trivialMath ocean_small 1 2 (fun f => (f : ℚ)) 1 1 1
      (by decide) (by decide)⟩

/-- C7: when a frame's cache record is absent, `load_frame` returns the
`NotBaked` error as a first-class result; and whenever it returns `ok`, the
record is exactly a complete stored snapshot, never partially-initialized
fields. -/
theorem load_frame_not_baked (frames : List (Nat × List OceanResult)) (f : Nat)
    (h : ∀ p ∈ frames, p.1 ≠ f) :
    BKE_ocean_cache_load_frame frames f = Except.error OceanCacheError.NotBaked ∧
    ∀ (frames2 : List (Nat × List OceanResult)) (f2 : Nat) (r2 : List OceanResult),
      BKE_ocean_cache_load_frame frames2 f2 = Except.ok r2 → (f2, r2) ∈ frames2 :=
  ⟨load_absent_error frames f h, load_ok_mem⟩

/-- Witness for C7: a cache holding only frame 1, queried for frame 2. -/
theorem load_frame_not_baked_witness :
    (∀ p ∈ [((1 : Nat), ([] : List OceanResult))], p.1 ≠ 2) ∧
      (BKE_ocean_cache_load_frame [((1 : Nat), ([] : List OceanResult))] 2 =
          Except.error OceanCacheError.NotBaked ∧
        ∀ (frames2 : List (Nat × List OceanResult)) (f2 : Nat) (r2 : List OceanResult),
          BKE_ocean_cache_load_frame frames2 f2 = Except.ok r2 → (f2, r2) ∈ frames2) :=
  ⟨by decide, load_frame_not_baked _ _ (by decide)⟩

/-- C8: evaluating an ocean whose feature flags are all off returns the
neutral result — zero displacement, up normal, zero foam — at every integer
grid coordinate and every UV coordinate. -/
theorem eval_all_flags_off_neutral (ext : OceanMath) (o : Ocean) (i j : Int)
    (u v : ℚ)
    (h : o.do_disp_y = false ∧ o.do_chop = false ∧
      o.do_normals = false ∧ o.do_jacobian = false) :
    BKE_ocean_eval_ij ext o i j = neutral_result ∧
    BKE_ocean_eval_uv ext o u v = neutral_result := by
  obtain ⟨h1, h2, h3, h4⟩ := h
  have hij : ∀ a b : Int, BKE_ocean_eval_ij ext o a b = neutral_result := by
    intro a b
    simp [BKE_ocean_eval_ij, h1, h2, h3, h4, neutral_result]
  refine ⟨hij i j, ?_⟩
  simp only [BKE_ocean_eval_uv, hij]
  simp [neutral_result, bilerp, lerp]

/-- Witness for C8 at the concrete all-flags-off ocean. -/
theorem eval_all_flags_off_neutral_witness :
    (ocean_all_off.do_disp_y = false ∧ ocean_all_off.do_chop = false ∧
      ocean_all_off.do_normals = false ∧ ocean_all_off.do_jacobian = false) ∧
      (BKE_ocean_eval_ij trivialMath ocean_all_off 0 0 = neutral_result ∧
        BKE_ocean_eval_uv trivialMath ocean_all_off (1 / 3) (1 / 2) = neutral_result) :=
  ⟨⟨rfl, rfl, rfl, rfl⟩,
    eval_all_flags_off_neutral trivialMath ocean_all_off 0 0 (1 / 3) (1 / 2)
      ⟨rfl, rfl, rfl, rfl⟩⟩

/-- C9: initialization from the modifier enables choppiness exactly when
`chop_amount > 0`, and the simulation step computes the two
horizontal-displacement fields exactly when that flag is on. -/
theorem chop_fields_iff_chop_amount (ext : OceanMath) (kx kz : Nat → ℚ)
    (omd : OceanModifierData) (r : Nat) (t scale chop : ℚ) :
    (FieldTag.chopX ∈
        (BKE_ocean_simulate ext (BKE_ocean_init_from_modifier ext kx kz omd r)
          t scale chop).2 ↔ 0 < omd.chop_amount) ∧
    (FieldTag.chopZ ∈
        (BKE_ocean_simulate ext (BKE_ocean_init_from_modifier ext kx kz omd r)
          t scale chop).2 ↔ 0 < omd.chop_amount) ∧
    (BKE_ocean_init_from_modifier ext kx kz omd r).do_chop =
      decide (0 < omd.chop_amount) := by
  cases hf : omd.generate_foam <;> cases hn : omd.generate_normals <;>
    by_cases hc : 0 < omd.chop_amount <;>
      simp [simulate_tags, BKE_ocean_init_from_modifier, BKE_ocean_init, hf, hn, hc]

/-- C10: in displace mode a vertex keeps its horizontal coordinates; only
`co[1]` changes, incremented by `ocr.disp[1] * scale` after evaluating the
ocean at the vertex's UV. -/
theorem displace_modifies_only_y (ext : OceanMath) (o : Ocean)
    (omd : OceanModifierData) (co0 co1 co2 : ℚ) :
    (displace_vertex ext o omd co0 co1 co2).1 = co0 ∧
    (displace_vertex ext o omd co0 co1 co2).2.2 = co2 ∧
    (displace_vertex ext o omd co0 co1 co2).2.1 =
      co1 + (BKE_ocean_eval_uv ext o ((co0 - omd.location0) / omd.spatial_size)
        ((co2 - omd.location2) / omd.spatial_size)).disp1 * omd.scale :=
  ⟨rfl, rfl, rfl⟩
